import Mathlib

/-!
Verification development for the link-checker backend (backend/server.js).

The JavaScript source is shallowly embedded: pure functions become Lean
functions over explicit data; the stateful crawl loop becomes a fueled
step function on an explicit state record; network and browser I/O are
modelled as oracle functions passed in as parameters (the embedding is a
pure function of the oracle answers).  JavaScript numbers are modelled as
integers/rationals, with a small explicit NaN/Infinity model where the
source can actually produce such values (the health score).  Sentinel
status strings (TIMEOUT, DNS_ERROR, ...) are a separate constructor, and
JavaScript relational comparisons between a number and such a string are
modelled as false, matching the NaN comparison semantics of the source.
-/

namespace LinkChecker

/-! ## String helpers

Embeddings of `String.prototype.includes`, `String.prototype.startsWith`
and `String.prototype.toLowerCase` (the source only uses ASCII patterns,
so ASCII lowering is faithful). -/

/-- List version of prefix testing: `subAt pat cs` is true when `pat`
occurs at the head of `cs`. -/
def subAt : List Char → List Char → Bool
  | [], _ => true
  | _ :: _, [] => false
  | p :: ps, c :: cs => p == c && subAt ps cs

/-- Predicate `hasSub pat cs` is true when `pat` occurs contiguously anywhere in
`cs` (embedding of `String.prototype.includes`). -/
def hasSub (pat : List Char) : List Char → Bool
  | [] => subAt pat []
  | c :: cs => subAt pat (c :: cs) || hasSub pat cs

/-- Embedding `strIncludes s pat` of JavaScript `s.includes(pat)`. -/
def strIncludes (s pat : String) : Bool :=
  hasSub pat.toList s.toList

/-- Embedding `strStarts s pat` of JavaScript `s.startsWith(pat)`. -/
def strStarts (s pat : String) : Bool :=
  subAt pat.toList s.toList

/-- ASCII lower-casing of one character; the source only lower-cases to
compare against ASCII patterns, so this is faithful to
`String.prototype.toLowerCase` for every comparison it performs. -/
def lowerChar (c : Char) : Char :=
  if 65 ≤ c.toNat ∧ c.toNat ≤ 90 then Char.ofNat (c.toNat + 32) else c

/-- JavaScript `s.toLowerCase().includes(pat)` for an ASCII lower-case
pattern `pat`. -/
def lowerIncludes (s pat : String) : Bool :=
  hasSub pat.toList (s.toList.map lowerChar)

/-! ## Link classification (server.js lines 37-81) -/

/-- The affiliate/tracking URL patterns of `isAffiliateLink`. -/
def affiliatePatterns : List String :=
  ["/api/click", "/track", "/aff", "/redirect", "/redir", "/goto", "/out",
   "clickid", "affid", "tid="]

/-- Source function `isAffiliateLink(url)`: the URL (lower-cased) contains one of the
affiliate/tracking patterns. -/
def isAffiliateLink (url : String) : Bool :=
  affiliatePatterns.any (fun pat => lowerIncludes url pat)

/-- The tracking-pixel / analytics-beacon patterns of `isTrackingPixel`. -/
def trackingPatterns : List String :=
  ["bat.bing.com", "google-analytics.com", "googletagmanager.com",
   "facebook.com/tr", "doubleclick.net", "analytics.", "/pixel", "/beacon",
   "track.php", "collect?"]

/-- Source function `isTrackingPixel(url)`: the URL (lower-cased) contains one of the
tracking-pixel patterns. -/
def isTrackingPixel (url : String) : Bool :=
  trackingPatterns.any (fun pat => lowerIncludes url pat)

/-! ## Status values

A verification status in the source is either a numeric HTTP status or
one of a fixed set of sentinel strings (`ERROR`, `DNS_ERROR`, `TIMEOUT`,
`CONNECTION_REFUSED`, `Invalid`). -/

/-- A status value: a JavaScript number or a sentinel string. -/
inductive Status where
  | num (n : ℤ)
  | err (s : String)
deriving DecidableEq

/-- JavaScript `status >= lo && status < hi`.  A sentinel string converts
to NaN, so every relational comparison on it is false. -/
def numRange (s : Status) (lo hi : ℤ) : Bool :=
  match s with
  | .num n => decide (lo ≤ n ∧ n < hi)
  | .err _ => false

/-- JavaScript `status >= k` (false on sentinel strings, as for NaN). -/
def numGe (s : Status) (k : ℤ) : Bool :=
  match s with
  | .num n => decide (k ≤ n)
  | .err _ => false

/-- Source function `isSuccessStatus(status)` (server.js lines 71-81): a numeric 2xx, or
exactly 304. -/
def isSuccessStatus (s : Status) : Bool :=
  match s with
  | .num n => decide (200 ≤ n ∧ n < 300) || decide (n = 304)
  | .err _ => false

/-! ## Fallback triage mappings (server.js lines 307-327) -/

/-- Source function `determinePriorityFromStatus(status)` (server.js lines 307-312). -/
def determinePriorityFromStatus (status : Status) : String :=
  if status = .num 404 ∨ status = .num 500 ∨ status = .err "ERROR" then "Critical"
  else if status = .num 403 ∨ status = .num 401 ∨ status = .err "TIMEOUT" then "High"
  else if numRange status 300 400 then "Medium"
  else "Low"

/-- Source function `getIssueType(status)` (server.js lines 315-327). -/
def getIssueType (status : Status) : String :=
  if status = .num 404 then "Broken Link (404)"
  else if status = .num 403 then "Access Forbidden (403)"
  else if status = .num 401 then "Unauthorized (401)"
  else if status = .num 500 ∨ numGe status 500 then "Server Error (500+)"
  else if status = .err "TIMEOUT" then "Timeout Error"
  else if status = .err "DNS_ERROR" then "DNS Error"
  else if status = .err "CONNECTION_REFUSED" then "Connection Refused"
  else if status = .err "ERROR" then "Connection Error"
  else if status = .num 304 then "Not Modified (Cached)"
  else if numRange status 300 400 then "Redirect"
  else "Unknown Issue"

/-! ## Impact score (server.js lines 330-347) -/

/-- The accumulated score of `calculateImpactScore` before the final
clamp (the value of the local variable `score` at server.js line 344). -/
def calculateImpactScoreRaw (status : Status) (context : String)
    (appearanceCount : ℕ) : ℕ :=
  let score : ℕ := 50
  let score :=
    if status = .num 404 then score + 30
    else if numGe status 500 then score + 35
    else if status = .num 403 then score + 20
    else if numRange status 300 400 then score + 10
    else score
  let score :=
    if lowerIncludes context "cta" || lowerIncludes context "button" then score + 20
    else score
  let score :=
    if lowerIncludes context "hero" || lowerIncludes context "header" then score + 15
    else score
  let score := if lowerIncludes context "navigation" then score + 10 else score
  score + min (appearanceCount * 5) 20

/-- Source function `calculateImpactScore(linkData, appearanceCount)` (server.js lines
330-347): the raw score clamped to [0,100]. -/
def calculateImpactScore (status : Status) (context : String)
    (appearanceCount : ℕ) : ℕ :=
  min (max (calculateImpactScoreRaw status context appearanceCount) 0) 100

/-! ## The conservative email pattern (server.js line 150)

The regex is `^mailto:[a-zA-Z0-9._-]+@[a-zA-Z0-9.-]+\.[a-zA-Z]{2,}$`.
Because the local-part class excludes the at sign, the regex at sign can
only match the first at sign of the string; and because the trailing
alphabetic group cannot contain a dot, the dot the regex matches before
it is necessarily the last dot of the domain part.  The matcher below is
built from that normal form. -/

/-- Character class `[a-zA-Z0-9._-]` (local part of the email regex). -/
def emailLocalChar (c : Char) : Bool :=
  c.isAlpha || c.isDigit || c == '.' || c == '_' || c == '-'

/-- Character class `[a-zA-Z0-9.-]` (domain part of the email regex). -/
def emailDomainChar (c : Char) : Bool :=
  c.isAlpha || c.isDigit || c == '.' || c == '-'

/-- Embedding of `emailPattern.test(url)` for the regex at server.js line 150. -/
def emailPatternTest (url : String) : Bool :=
  let cs := url.toList
  subAt "mailto:".toList cs &&
    (let rest := cs.drop 7
     let loc := rest.takeWhile (fun c => c != '@')
     match rest.dropWhile (fun c => c != '@') with
     | [] => false
     | _ :: dom =>
       !loc.isEmpty && loc.all emailLocalChar && dom.all emailDomainChar &&
         (let revTld := dom.reverse.takeWhile (fun c => c != '.')
          match dom.reverse.dropWhile (fun c => c != '.') with
          | [] => false
          | _ :: revBefore =>
            decide (2 ≤ revTld.length) && revTld.all Char.isAlpha &&
              !revBefore.isEmpty))

/-! ## Verification outcomes (server.js lines 84-235)

Network and browser I/O is modelled by oracle values: the result the
browser navigation of `checkLinkWithBrowser` would produce, and the
result the `axios.get` call would produce.  `checkLinkStatus` is then a
pure function of the URL and these oracle answers.  Response times are
wall-clock measurements and are not modelled. -/

/-- The result of the browser navigation in `checkLinkWithBrowser`:
either a response (status, status text, final URL) or a thrown
navigation error. -/
inductive BrowserResult where
  | ok (status : ℤ) (statusText : String) (finalUrl : String)
  | errNav (msg : String)
deriving DecidableEq

/-- The result of the `axios.get` call in `checkLinkStatus`: a response
(any status, thanks to `validateStatus: () => true`), or one of the
thrown error conditions of the catch block (lines 216-234). -/
inductive HttpResult where
  | resp (status : ℤ) (statusText : String) (redirectCount : ℕ) (finalUrl : String)
  | dnsFailure
  | timedOut
  | connRefused
  | respFailure (status : ℤ) (statusText : String)
  | otherFailure (msg : String)
deriving DecidableEq

/-- A verification outcome (the objects returned from
`checkLinkStatus` / `checkLinkWithBrowser`). -/
structure Outcome where
  status : Status
  statusText : String
  skip : Bool := false
  treatAsWorking : Bool := false
  isAffiliate : Bool := false
  checkedWithBrowser : Bool := false
  redirectCount : ℕ := 0
  finalUrl : Option String := none
deriving DecidableEq

/-- Source function `checkLinkWithBrowser(url, browser)` (server.js lines 84-123) as a
function of the browser navigation oracle answer. -/
def checkLinkWithBrowser (br : BrowserResult) : Outcome :=
  match br with
  | .ok s t f =>
    { status := .num s, statusText := t, checkedWithBrowser := true,
      isAffiliate := true, finalUrl := some f }
  | .errNav m =>
    { status := .err "ERROR", statusText := m, checkedWithBrowser := true,
      isAffiliate := true }

/-- The non-affiliate HTTP branch of `checkLinkStatus` (server.js lines
195-234). -/
def httpOutcome (http : HttpResult) : Outcome :=
  match http with
  | .resp s t rc f =>
    { status := .num s, statusText := t, redirectCount := rc, finalUrl := some f }
  | .dnsFailure => { status := .err "DNS_ERROR", statusText := "Domain not found" }
  | .timedOut => { status := .err "TIMEOUT", statusText := "Request timeout" }
  | .connRefused =>
    { status := .err "CONNECTION_REFUSED", statusText := "Connection refused" }
  | .respFailure s t => { status := .num s, statusText := t }
  | .otherFailure m => { status := .err "ERROR", statusText := m }

/-- Source function `checkLinkStatus(url, browser)` (server.js lines 126-235).
`hasBrowser` models whether a browser handle was supplied; `br` and
`http` are the oracle answers of the two possible I/O actions. -/
def checkLinkStatus (url : String) (hasBrowser : Bool) (br : BrowserResult)
    (http : HttpResult) : Outcome :=
  if isTrackingPixel url then
    { status := .num 200, statusText := "Tracking Pixel", skip := true }
  else if strStarts url "data:" || strStarts url "blob:" then
    { status := .num 200, statusText := "Inline Content", skip := true }
  else if strStarts url "mailto:" then
    if emailPatternTest url then
      { status := .num 200, statusText := "Valid Email" }
    else
      { status := .err "Invalid", statusText := "Malformed Email" }
  else if strStarts url "tel:" then
    { status := .num 200, statusText := "Phone Link" }
  else if strStarts url "javascript:" || strStarts url "#" then
    { status := .num 200, statusText := "Internal Reference" }
  else if hasBrowser && isAffiliateLink url then
    let result := checkLinkWithBrowser br
    if result.status = .num 403 then
      { result with treatAsWorking := true,
                    statusText := "Anti-bot protection (link works in browsers)" }
    else result
  else httpOutcome http

/-- The screenshot gate of the scan loop (server.js lines 845-852):
status is 404, exactly 500, ERROR, DNS_ERROR or TIMEOUT, and the outcome
is not flagged treat-as-working. -/
def shouldTakeScreenshot (o : Outcome) : Bool :=
  (decide (o.status = .num 404) || decide (o.status = .num 500) ||
   decide (o.status = .err "ERROR") || decide (o.status = .err "DNS_ERROR") ||
   decide (o.status = .err "TIMEOUT")) && !o.treatAsWorking

/-! ## JavaScript numbers for the health score (server.js line 898)

`((totalLinks - issueLinks) / totalLinks) * 100` is ordinary JavaScript
double arithmetic; with `totalLinks = 0` it produces NaN (or an
infinity), which `Math.round` passes through and which `res.json`
serializes as `null`.  The model keeps finite values exact as rationals
and carries NaN and the infinities explicitly. -/

/-- A JavaScript number: NaN, an infinity, or a finite value. -/
inductive JsNum where
  | nan
  | pinf
  | ninf
  | fin (q : ℚ)
deriving DecidableEq

/-- JavaScript subtraction. -/
def JsNum.sub : JsNum → JsNum → JsNum
  | .fin a, .fin b => .fin (a - b)
  | .nan, _ => .nan
  | _, .nan => .nan
  | .pinf, .pinf => .nan
  | .pinf, _ => .pinf
  | .ninf, .ninf => .nan
  | .ninf, _ => .ninf
  | .fin _, .pinf => .ninf
  | .fin _, .ninf => .pinf

/-- JavaScript division (no negative zero arises in this program, so the
zero divisor behaves as positive zero). -/
def JsNum.div : JsNum → JsNum → JsNum
  | .fin a, .fin b =>
    if b = 0 then (if a = 0 then .nan else if 0 < a then .pinf else .ninf)
    else .fin (a / b)
  | .nan, _ => .nan
  | _, .nan => .nan
  | .pinf, .pinf => .nan
  | .pinf, .ninf => .nan
  | .ninf, .pinf => .nan
  | .ninf, .ninf => .nan
  | .pinf, .fin b => if b < 0 then .ninf else .pinf
  | .ninf, .fin b => if b < 0 then .pinf else .ninf
  | .fin _, .pinf => .fin 0
  | .fin _, .ninf => .fin 0

/-- JavaScript multiplication. -/
def JsNum.mul : JsNum → JsNum → JsNum
  | .fin a, .fin b => .fin (a * b)
  | .nan, _ => .nan
  | _, .nan => .nan
  | .pinf, .pinf => .pinf
  | .pinf, .ninf => .ninf
  | .ninf, .pinf => .ninf
  | .ninf, .ninf => .pinf
  | .pinf, .fin b => if b = 0 then .nan else if 0 < b then .pinf else .ninf
  | .ninf, .fin b => if b = 0 then .nan else if 0 < b then .ninf else .pinf
  | .fin a, .pinf => if a = 0 then .nan else if 0 < a then .pinf else .ninf
  | .fin a, .ninf => if a = 0 then .nan else if 0 < a then .ninf else .pinf

/-- JavaScript `Math.round`: round half toward positive infinity on
finite values; NaN and infinities pass through. -/
def JsNum.round : JsNum → JsNum
  | .fin q => .fin ((⌊q + 1/2⌋ : ℤ) : ℚ)
  | x => x

/-- JSON serialization of a JavaScript number: finite values serialize
to themselves, NaN and the infinities serialize to `null` (modelled as
`none`). -/
def jsonNumber : JsNum → Option ℚ
  | .fin q => some q
  | _ => none

/-- Source expression `healthScore` (server.js line 898):
`Math.round(((totalLinks - issueLinks) / totalLinks) * 100)`. -/
def healthScore (totalLinks issueLinks : ℕ) : JsNum :=
  JsNum.round (JsNum.mul (JsNum.div (JsNum.sub (.fin totalLinks) (.fin issueLinks))
    (.fin totalLinks)) (.fin 100))

/-! ## Crawl data (server.js lines 583-707)

`crawlWebsite` walks the site with a FIFO frontier and a visited set.
Page navigation is modelled by an oracle `web : String → Option (List
PageLink)`; `none` models a navigation failure (the catch at line 698),
`some links` models what `page.evaluate` extracted.  URL parsing is
modelled by an oracle `hostOf : String → Option String` for
`new URL(u).hostname` (`none` models the constructor throwing).
Two trace fields record observable events: `navigated` lists the URLs
for which navigation was attempted (in order), and `enqueued` lists
every (source page, target) pair pushed onto the frontier. -/

/-- One extracted DOM reference before the page URL is attached. -/
structure PageLink where
  url : String
  text : String
  context : String
  type : String
deriving DecidableEq

/-- A discovered reference: a `PageLink` with the page it was found on
(`{...link, pageUrl: currentUrl}`, server.js lines 670-673). -/
structure Reference where
  url : String
  text : String
  context : String
  type : String
  pageUrl : String
deriving DecidableEq

/-- The crawl loop state. -/
structure CrawlState where
  visited : List String
  toVisit : List String
  allLinks : List Reference
  navigated : List String
  enqueued : List (String × String)
deriving DecidableEq

/-- The same-domain test of the `internalLinks` filter (server.js lines
682-687): `new URL(link.url).hostname === baseDomain`, false when the
URL constructor throws. -/
def sameDomainOk (hostOf : String → Option String) (baseDomain : String)
    (u : String) : Bool :=
  match hostOf u with
  | some h => decide (h = baseDomain)
  | none => false

/-- Source expression `internalLinks` (server.js lines 677-689): same-domain anchor
targets that are not affiliate-class. -/
def internalLinksOf (hostOf : String → Option String) (baseDomain : String)
    (links : List PageLink) : List String :=
  (links.filter (fun l =>
    decide (l.type = "link") && !isAffiliateLink l.url &&
      sameDomainOk hostOf baseDomain l.url)).map (fun l => l.url)

/-- The enqueue loop (server.js lines 691-695): push each internal link
that is neither visited nor already queued, recording the enqueue in the
trace. -/
def enqueueAll (visited : List String) (src : String) :
    List String → List String → List (String × String) →
      List String × List (String × String)
  | [], q, e => (q, e)
  | l :: ls, q, e =>
    if l ∉ visited ∧ l ∉ q then
      enqueueAll visited src ls (q ++ [l]) (e ++ [(src, l)])
    else
      enqueueAll visited src ls q e

/-- The `while` loop of `crawlWebsite` (server.js lines 605-701), as a
fueled step function.  Fuel only bounds the number of iterations; every
theorem below holds for every fuel value. -/
def crawlLoop (web : String → Option (List PageLink))
    (hostOf : String → Option String) (baseDomain : String) (maxPages : ℕ) :
    ℕ → CrawlState → CrawlState
  | 0, st => st
  | fuel + 1, st =>
    match st.toVisit with
    | [] => st
    | u :: rest =>
      if maxPages ≤ st.visited.length then st
      else if u ∈ st.visited then
        crawlLoop web hostOf baseDomain maxPages fuel { st with toVisit := rest }
      else
        match web u with
        | none =>
          crawlLoop web hostOf baseDomain maxPages fuel
            { visited := st.visited ++ [u], toVisit := rest,
              allLinks := st.allLinks, navigated := st.navigated ++ [u],
              enqueued := st.enqueued }
        | some links =>
          let refs := links.map (fun l =>
            { url := l.url, text := l.text, context := l.context,
              type := l.type, pageUrl := u : Reference })
          let internal := internalLinksOf hostOf baseDomain links
          let qe := enqueueAll (st.visited ++ [u]) u internal rest st.enqueued
          crawlLoop web hostOf baseDomain maxPages fuel
            { visited := st.visited ++ [u], toVisit := qe.1,
              allLinks := st.allLinks ++ refs,
              navigated := st.navigated ++ [u], enqueued := qe.2 }

/-- The initial crawl state: frontier seeded with the root domain. -/
def initCrawl (domain : String) : CrawlState :=
  { visited := [], toVisit := [domain], allLinks := [], navigated := [],
    enqueued := [] }

/-- Source function `crawlWebsite(domain, maxPages)` (server.js lines 584-707): derive
the base hostname (`none` models the URL constructor throwing, in which
case the scan fails before crawling) and run the loop. -/
def crawlWebsite (web : String → Option (List PageLink))
    (hostOf : String → Option String) (domain : String) (maxPages fuel : ℕ) :
    Option CrawlState :=
  (hostOf domain).map (fun baseDomain =>
    crawlLoop web hostOf baseDomain maxPages fuel (initCrawl domain))

/-! ## Scan orchestration (server.js lines 710-929)

The `/api/scan` handler counts appearances per URL, deduplicates the
reference list by URL (keeping the first discovered reference), verifies
each unique URL once, and turns qualifying outcomes into issues.  The
external AI text service is an oracle `ai : String → Option AIAnalysis`
keyed by the unique URL (`none` models the collaborator being
unavailable, which the source tolerates). -/

/-- A parsed response of the external AI analysis collaborator
(server.js lines 291-296). -/
structure AIAnalysis where
  analysis : String
  suggestedFix : Option String
  issueType : String
  priority : String
deriving DecidableEq

/-- A reported issue (the object pushed at server.js lines 870-889).
The `screenshotAttempted` field records whether the screenshot branch
was entered (`shouldTakeScreenshot`); the screenshot payload itself is
browser output and is not modelled. -/
structure Issue where
  pageUrl : String
  linkText : String
  linkUrl : String
  status : Status
  statusText : String
  redirectCount : ℕ
  finalUrl : String
  priority : String
  type : String
  context : String
  suggestedFix : Option String
  impactScore : ℕ
  appearancesCount : ℕ
  linkType : String
  screenshotAttempted : Bool
deriving DecidableEq

/-- Source map `linkAppearances` (server.js lines 741-745): the number of
occurrences of `u` among all discovered references (each reference on
each page counts once, including repeats on the same page). -/
def countAppearances (links : List Reference) (u : String) : ℕ :=
  (links.filter (fun l => decide (l.url = u))).length

/-- First-occurrence deduplication with a seen accumulator. -/
def jsSetDedupAux : List String → List String → List String
  | [], _ => []
  | x :: xs, seen =>
    if x ∈ seen then jsSetDedupAux xs seen
    else x :: jsSetDedupAux xs (x :: seen)

/-- First-occurrence deduplication, the order-preserving semantics of
`Array.from(new Set(xs))`. -/
def jsSetDedup (xs : List String) : List String := jsSetDedupAux xs []

/-- Source expression `uniqueLinks` (server.js lines 748-749): one representative
reference per unique URL, namely the first reference carrying it. -/
def uniqueLinks (links : List Reference) : List Reference :=
  (jsSetDedup (links.map (fun l => l.url))).filterMap
    (fun u => links.find? (fun l => decide (l.url = u)))

/-- Source predicate `isActualIssue` (server.js lines 791-798). -/
def isActualIssue (o : Outcome) : Bool :=
  !isSuccessStatus o.status && !o.treatAsWorking &&
    !(decide (o.status = .num 200)) && !(numRange o.status 300 400)

/-- The body of the per-unique-link loop (server.js lines 756-893) for
one link: `none` when the link is skipped or not an issue, `some issue`
when an issue is pushed.  `ai0` is the AI oracle answer for this link;
the source only consults it when `needsAnalysis` holds. -/
def processLink (link : Reference) (statusInfo : Outcome)
    (ai0 : Option AIAnalysis) (appearanceCount : ℕ) : Option Issue :=
  if statusInfo.skip then none
  else
    let needsAnalysis : Bool :=
      !(decide (statusInfo.status = .num 200)) ||
        decide (0 < statusInfo.redirectCount) ||
        lowerIncludes link.context "cta" || lowerIncludes link.context "button"
    let aiAnalysis := if needsAnalysis then ai0 else none
    if statusInfo.status = .num 403 ∧ statusInfo.isAffiliate = true then none
    else if statusInfo.status = .num 304 then none
    else
      let aiFlagsIssue : Bool :=
        match aiAnalysis with
        | some a => decide (a.issueType ≠ "No Issue")
        | none => false
      if isActualIssue statusInfo || aiFlagsIssue then
        some
          { pageUrl := link.pageUrl, linkText := link.text,
            linkUrl := link.url, status := statusInfo.status,
            statusText := statusInfo.statusText,
            redirectCount := statusInfo.redirectCount,
            finalUrl := statusInfo.finalUrl.getD link.url,
            priority := (aiAnalysis.map AIAnalysis.priority).getD
              (determinePriorityFromStatus statusInfo.status),
            type := (aiAnalysis.map AIAnalysis.issueType).getD
              (getIssueType statusInfo.status),
            context := link.context,
            suggestedFix := aiAnalysis.bind AIAnalysis.suggestedFix,
            impactScore := calculateImpactScore statusInfo.status link.context
              appearanceCount,
            appearancesCount := appearanceCount,
            linkType := link.type,
            screenshotAttempted := shouldTakeScreenshot statusInfo }
      else none

/-- The unsorted issue list of one scan: verify each unique link once
and collect the issues, in discovery order. -/
def scanIssues (links : List Reference) (netB : String → BrowserResult)
    (netH : String → HttpResult) (ai : String → Option AIAnalysis) :
    List Issue :=
  (uniqueLinks links).filterMap (fun l =>
    processLink l (checkLinkStatus l.url true (netB l.url) (netH l.url))
      (ai l.url) (countAppearances links l.url))

/-- Priority ranks of the response sort comparator (server.js lines
924-927). -/
def priorityRank (p : String) : ℕ :=
  if p = "Critical" then 0
  else if p = "High" then 1
  else if p = "Medium" then 2
  else if p = "Low" then 3
  else 4

/-- Insert an issue into a rank-sorted list, after existing issues of
the same rank. -/
def insertByRank (i : Issue) : List Issue → List Issue
  | [] => [i]
  | j :: js =>
    if priorityRank j.priority ≤ priorityRank i.priority then
      j :: insertByRank i js
    else i :: j :: js

/-- The stable sort by priority rank applied to the results (server.js
lines 924-927).  The theorems below use only that it permutes its
input. -/
def sortByPriority : List Issue → List Issue
  | [] => []
  | i :: is => insertByRank i (sortByPriority is)

/-- The final, ranked issue list returned by one scan. -/
def scanResults (links : List Reference) (netB : String → BrowserResult)
    (netH : String → HttpResult) (ai : String → Option AIAnalysis) :
    List Issue :=
  sortByPriority (scanIssues links netB netH ai)

/-! ## Statement-side definitions

Used only to state properties; `pagesContainingUrl` follows the words of
the specification (count of pages on which the target URL appears) for
comparison with the count the source actually computes, and
`impactScoreSpec` is the impact formula written as independent additive
bonuses, the way the specification words it. -/

/-- The number of distinct pages on which references to `u` appear
(specification wording; the source counts occurrences instead). -/
def pagesContainingUrl (links : List Reference) (u : String) : ℕ :=
  (jsSetDedup ((links.filter (fun l => decide (l.url = u))).map
    (fun l => l.pageUrl))).length

/-- The impact formula as a sum of independent bonuses: base 50, status
bonuses (+30 for 404, +35 for status at least 500, +20 for 403, +10 for
3xx), context bonuses, the appearance bonus capped at 20, clamped to
[0,100]. -/
def impactScoreSpec (status : Status) (context : String) (n : ℕ) : ℕ :=
  min (max (50
    + (if status = .num 404 then 30 else 0)
    + (if numGe status 500 then 35 else 0)
    + (if status = .num 403 then 20 else 0)
    + (if numRange status 300 400 then 10 else 0)
    + (if lowerIncludes context "cta" || lowerIncludes context "button" then 20 else 0)
    + (if lowerIncludes context "hero" || lowerIncludes context "header" then 15 else 0)
    + (if lowerIncludes context "navigation" then 10 else 0)
    + min (n * 5) 20) 0) 100

/-! ## Concrete fixtures

A small concrete site and concrete oracle answers, used to instantiate
the theorems below at explicit inputs. -/

/-- A two-page demo site: the root links to a same-domain page `/a`
(whose navigation fails), an affiliate-class target, and a cross-domain
target. -/
def demoWeb : String → Option (List PageLink) := fun u =>
  if u = "https://site.example/" then
    some
      [ { url := "https://site.example/a", text := "A", context := "nav",
          type := "link" },
        { url := "https://site.example/go?tid=9", text := "Shop",
          context := "main", type := "link" },
        { url := "https://other.example/x", text := "X", context := "main",
          type := "link" } ]
  else if u = "https://site.example/a" then none
  else some []

/-- Hostname oracle for the demo site. -/
def demoHost : String → Option String := fun u =>
  if strStarts u "https://site.example" then some "site.example"
  else if strStarts u "https://other.example" then some "other.example"
  else none

/-- A reference to a dead URL in the footer of the demo root page. -/
def footRef1 : Reference :=
  { url := "https://dead.example/x", text := "Dead link", context := "footer",
    type := "link", pageUrl := "https://site.example/" }

/-- A second reference to the same dead URL on the same page. -/
def footRef2 : Reference :=
  { url := "https://dead.example/x", text := "Dead link again",
    context := "footer", type := "link", pageUrl := "https://site.example/" }

/-- Two references to one URL on one page. -/
def demoRefs : List Reference := [footRef1, footRef2]

/-- An affiliate-class reference on the demo root page. -/
def affRef : Reference :=
  { url := "https://x.example/api/click?id=1", text := "Buy now",
    context := "main", type := "link", pageUrl := "https://site.example/" }

/-- Browser oracle answering every navigation with a thrown error. -/
def browserErr : String → BrowserResult := fun _ => .errNav "net::ERR_FAILED"

/-- Browser oracle answering every navigation with 403. -/
def browser403 : String → BrowserResult := fun _ =>
  .ok 403 "Forbidden" "https://x.example/landing"

/-- Browser oracle answering every navigation with 404. -/
def browser404 : String → BrowserResult := fun _ =>
  .ok 404 "Not Found" "https://x.example/landing"

/-- HTTP oracle answering every request with 404. -/
def net404 : String → HttpResult := fun _ =>
  .resp 404 "Not Found" 0 "https://dead.example/x"

/-- HTTP oracle answering every request with 502. -/
def net502 : String → HttpResult := fun _ =>
  .resp 502 "Bad Gateway" 0 "https://dead.example/x"

/-- AI oracle modelling the collaborator being unavailable. -/
def noAI : String → Option AIAnalysis := fun _ => none

/-! # Lemmas and theorems -/

/-! ## The fallback triage table (claims C3, C7) -/

/-- Normal form of `determinePriorityFromStatus` on numeric statuses. -/
lemma priority_num_eq (n : ℤ) :
    determinePriorityFromStatus (Status.num n) =
      if n = 404 ∨ n = 500 then "Critical"
      else if n = 403 ∨ n = 401 then "High"
      else if 300 ≤ n ∧ n < 400 then "Medium"
      else "Low" := by
  simp only [determinePriorityFromStatus, numRange, decide_eq_true_eq]
  split_ifs <;> simp_all

/-- Normal form of `determinePriorityFromStatus` on sentinel statuses. -/
lemma priority_err_eq (s : String) :
    determinePriorityFromStatus (Status.err s) =
      if s = "ERROR" then "Critical"
      else if s = "TIMEOUT" then "High"
      else "Low" := by
  simp only [determinePriorityFromStatus, numRange]
  split_ifs <;> simp_all

/-- Normal form of `getIssueType` on numeric statuses. -/
lemma issueType_num_eq (n : ℤ) :
    getIssueType (Status.num n) =
      if n = 404 then "Broken Link (404)"
      else if n = 403 then "Access Forbidden (403)"
      else if n = 401 then "Unauthorized (401)"
      else if 500 ≤ n then "Server Error (500+)"
      else if n = 304 then "Not Modified (Cached)"
      else if 300 ≤ n ∧ n < 400 then "Redirect"
      else "Unknown Issue" := by
  simp only [getIssueType, numRange, numGe, decide_eq_true_eq]
  split_ifs <;> simp_all

/-- Normal form of `getIssueType` on sentinel statuses. -/
lemma issueType_err_eq (s : String) :
    getIssueType (Status.err s) =
      if s = "TIMEOUT" then "Timeout Error"
      else if s = "DNS_ERROR" then "DNS Error"
      else if s = "CONNECTION_REFUSED" then "Connection Refused"
      else if s = "ERROR" then "Connection Error"
      else "Unknown Issue" := by
  simp only [getIssueType, numRange, numGe]
  split_ifs <;> simp_all

/-- Claim C3 counterexample: the fallback priority of status 502 is
"Low", not "Critical" as the claimed table (any 5xx to Critical)
requires. -/
theorem claim3_counterexample :
    determinePriorityFromStatus (Status.num 502) = "Low" ∧
      determinePriorityFromStatus (Status.num 502) ≠ "Critical" := by
  constructor <;> decide

/-- Claim C3 (amended): the fallback table as the code implements it.
404 maps to Critical with label "Broken Link (404)"; exactly 500 and the
sentinel ERROR map to Critical; every numeric status at least 500 gets
label "Server Error (500+)" but statuses strictly above 500 get priority
Low; 403 and 401 map to High with their labels; TIMEOUT maps to High
with label "Timeout Error"; numeric 3xx map to Medium, labelled
"Redirect" except 304 which is labelled "Not Modified (Cached)";
DNS_ERROR and CONNECTION_REFUSED map to Low with their labels; every
other status maps to Low with label "Unknown Issue". -/
theorem claim3_fallback_table (n : ℤ) (s : String) :
    (determinePriorityFromStatus (Status.num 404) = "Critical" ∧
      getIssueType (Status.num 404) = "Broken Link (404)") ∧
    (determinePriorityFromStatus (Status.num 500) = "Critical") ∧
    (determinePriorityFromStatus (Status.err "ERROR") = "Critical" ∧
      getIssueType (Status.err "ERROR") = "Connection Error") ∧
    (500 ≤ n → getIssueType (Status.num n) = "Server Error (500+)") ∧
    (500 < n → determinePriorityFromStatus (Status.num n) = "Low") ∧
    (determinePriorityFromStatus (Status.num 403) = "High" ∧
      getIssueType (Status.num 403) = "Access Forbidden (403)") ∧
    (determinePriorityFromStatus (Status.num 401) = "High" ∧
      getIssueType (Status.num 401) = "Unauthorized (401)") ∧
    (determinePriorityFromStatus (Status.err "TIMEOUT") = "High" ∧
      getIssueType (Status.err "TIMEOUT") = "Timeout Error") ∧
    (300 ≤ n → n < 400 → determinePriorityFromStatus (Status.num n) = "Medium") ∧
    (getIssueType (Status.num 304) = "Not Modified (Cached)") ∧
    (300 ≤ n → n < 400 → n ≠ 304 → getIssueType (Status.num n) = "Redirect") ∧
    (determinePriorityFromStatus (Status.err "DNS_ERROR") = "Low" ∧
      getIssueType (Status.err "DNS_ERROR") = "DNS Error") ∧
    (determinePriorityFromStatus (Status.err "CONNECTION_REFUSED") = "Low" ∧
      getIssueType (Status.err "CONNECTION_REFUSED") = "Connection Refused") ∧
    (n < 300 → determinePriorityFromStatus (Status.num n) = "Low") ∧
    (n < 300 → getIssueType (Status.num n) = "Unknown Issue") ∧
    (400 ≤ n → n < 500 → n ≠ 404 → n ≠ 403 → n ≠ 401 →
      determinePriorityFromStatus (Status.num n) = "Low" ∧
        getIssueType (Status.num n) = "Unknown Issue") ∧
    (s ≠ "ERROR" → s ≠ "TIMEOUT" →
      determinePriorityFromStatus (Status.err s) = "Low") ∧
    (s ≠ "TIMEOUT" → s ≠ "DNS_ERROR" → s ≠ "CONNECTION_REFUSED" →
      s ≠ "ERROR" → getIssueType (Status.err s) = "Unknown Issue") := by
  refine ⟨by constructor <;> decide, by decide, by constructor <;> decide,
    ?_, ?_, by constructor <;> decide, by constructor <;> decide,
    by constructor <;> decide, ?_, by decide, ?_,
    by constructor <;> decide, by constructor <;> decide, ?_, ?_, ?_, ?_, ?_⟩
  · intro h
    rw [issueType_num_eq]
    split_ifs <;> first | rfl | omega
  · intro h
    rw [priority_num_eq]
    split_ifs <;> first | rfl | omega
  · intro h1 h2
    rw [priority_num_eq]
    split_ifs <;> first | rfl | omega
  · intro h1 h2 h3
    rw [issueType_num_eq]
    split_ifs <;> first | rfl | omega
  · intro h
    rw [priority_num_eq]
    split_ifs <;> first | rfl | omega
  · intro h
    rw [issueType_num_eq]
    split_ifs <;> first | rfl | omega
  · intro h1 h2 h3 h4 h5
    rw [priority_num_eq, issueType_num_eq]
    constructor <;> (split_ifs <;> first | rfl | omega)
  · intro h1 h2
    rw [priority_err_eq]
    split_ifs <;> first | rfl | simp_all
  · intro h1 h2 h3 h4
    rw [issueType_err_eq]
    split_ifs <;> first | rfl | simp_all

/-- Witness for claim C3 (amended): concrete rows of the table. -/
theorem claim3_fallback_table_witness :
    getIssueType (Status.num 502) = "Server Error (500+)" ∧
      determinePriorityFromStatus (Status.num 502) = "Low" ∧
      determinePriorityFromStatus (Status.num 307) = "Medium" ∧
      getIssueType (Status.num 307) = "Redirect" ∧
      determinePriorityFromStatus (Status.num 200) = "Low" ∧
      getIssueType (Status.err "Invalid") = "Unknown Issue" := by
  have h := claim3_fallback_table 502 "Invalid"
  have h307 := claim3_fallback_table 307 "Invalid"
  exact ⟨h.2.2.2.1 (by decide), h.2.2.2.2.1 (by decide),
    h307.2.2.2.2.2.2.2.2.1 (by decide) (by decide),
    h307.2.2.2.2.2.2.2.2.2.2.1 (by decide) (by decide) (by decide),
    (claim3_fallback_table 200 "Invalid").2.2.2.2.2.2.2.2.2.2.2.2.2.1 (by decide),
    h.2.2.2.2.2.2.2.2.2.2.2.2.2.2.2.2.2 (by decide) (by decide) (by decide)
      (by decide)⟩

/-- Claim C7 counterexample: for a 404 on 1 page with context
"Hero CTA button", the accumulated (unclamped) score is 120
(50 + 30 + 20 + 15 + min(1*5, 20)), not 115 as claimed: the claimed
formula itself includes the appearance bonus min(1*5,20) = 5, which the
claimed sum of 115 omits. -/
theorem claim7_counterexample :
    calculateImpactScoreRaw (Status.num 404) "Hero CTA button" 1 = 120 ∧
      calculateImpactScoreRaw (Status.num 404) "Hero CTA button" 1 ≠ 115 := by
  constructor <;> decide

/-- Claim C7 (amended): the impact score is exactly the claimed additive
formula (base 50; +30 for 404, +35 for any status at least 500, +20 for
403, +10 for 3xx; +20 for cta/button context, +15 for hero/header, +10
for navigation; + min(5n, 20); clamped to [0,100]) — and the concrete
404/"Hero CTA button"/1-page example sums to 120, not 115, still
clamping to 100. -/
theorem claim7_impact_score :
    (∀ (s : Status) (c : String) (n : ℕ),
      calculateImpactScore s c n = impactScoreSpec s c n) ∧
    calculateImpactScoreRaw (Status.num 404) "Hero CTA button" 1 = 120 ∧
    calculateImpactScore (Status.num 404) "Hero CTA button" 1 = 100 := by
  refine ⟨fun s c n => ?_, by decide, by decide⟩
  simp only [calculateImpactScore, calculateImpactScoreRaw, impactScoreSpec]
  generalize (lowerIncludes c "cta" || lowerIncludes c "button") = b1
  generalize (lowerIncludes c "hero" || lowerIncludes c "header") = b2
  generalize (lowerIncludes c "navigation") = b3
  cases s with
  | num m =>
    simp only [numGe, numRange, decide_eq_true_eq, Status.num.injEq]
    split_ifs <;> omega
  | err e =>
    simp only [numGe, numRange]
    split_ifs <;> simp_all

/-! ## Special schemes (claim C8) -/

/-- Two prefix patterns starting with different characters cannot both
match. -/
lemma subAt_head_false (c d : Char) (ps qs cs : List Char) (hne : ¬ c = d)
    (h : subAt (c :: ps) cs = true) : subAt (d :: qs) cs = false := by
  cases cs with
  | nil => simp [subAt] at h
  | cons x xs =>
    simp only [subAt, Bool.and_eq_true, beq_iff_eq] at h
    obtain ⟨rfl, -⟩ := h
    have hdc : (d == c) = false := by
      simp only [beq_eq_false_iff_ne, ne_eq]
      exact fun hh => hne hh.symm
    simp [subAt, hdc]

/-- A `mailto:` URL is not a `data:` or `blob:` URL. -/
lemma strStarts_mailto_excl (url : String) (h : strStarts url "mailto:" = true) :
    strStarts url "data:" = false ∧ strStarts url "blob:" = false := by
  unfold strStarts at h ⊢
  rw [show "mailto:".toList = 'm' :: "ailto:".toList from rfl] at h
  constructor
  · rw [show "data:".toList = 'd' :: "ata:".toList from rfl]
    exact subAt_head_false _ _ _ _ _ (by decide) h
  · rw [show "blob:".toList = 'b' :: "lob:".toList from rfl]
    exact subAt_head_false _ _ _ _ _ (by decide) h

/-- A `tel:` URL is not a `data:`, `blob:` or `mailto:` URL. -/
lemma strStarts_tel_excl (url : String) (h : strStarts url "tel:" = true) :
    strStarts url "data:" = false ∧ strStarts url "blob:" = false ∧
      strStarts url "mailto:" = false := by
  unfold strStarts at h ⊢
  rw [show "tel:".toList = 't' :: "el:".toList from rfl] at h
  refine ⟨?_, ?_, ?_⟩
  · rw [show "data:".toList = 'd' :: "ata:".toList from rfl]
    exact subAt_head_false _ _ _ _ _ (by decide) h
  · rw [show "blob:".toList = 'b' :: "lob:".toList from rfl]
    exact subAt_head_false _ _ _ _ _ (by decide) h
  · rw [show "mailto:".toList = 'm' :: "ailto:".toList from rfl]
    exact subAt_head_false _ _ _ _ _ (by decide) h

/-- Claim C8 counterexample: the mailto URL `mailto:x/pixel` matches the
tracking-pixel pattern list (it contains "/pixel"), so `checkLinkStatus`
returns a synthetic 200 before the email-pattern branch is reached, even
though the address does not match the email pattern — the claimed
equivalence (status 200 iff the pattern matches) fails. -/
theorem claim8_counterexample :
    (checkLinkStatus "mailto:x/pixel" true (BrowserResult.errNav "x")
        HttpResult.dnsFailure).status = Status.num 200 ∧
      emailPatternTest "mailto:x/pixel" = false := by
  constructor <;> decide

/-- Claim C8 (amended): for every `mailto:` URL that does not match a
tracking-pixel pattern, the outcome is computed without consulting
either network oracle, and its status is 200 exactly when the address
matches the conservative email pattern (and the sentinel "Invalid"
otherwise); `mailto:a@b.co` is valid and `mailto:not-an-email` is not.
A mailto URL that does match a tracking-pixel pattern is skipped with a
synthetic 200 instead of being validated.  Every `tel:` URL gets status
200 regardless of oracles. -/
theorem claim8_special_schemes (url : String) (b b2 : Bool)
    (br br2 : BrowserResult) (http http2 : HttpResult) :
    (strStarts url "mailto:" = true → isTrackingPixel url = false →
      checkLinkStatus url b br http = checkLinkStatus url b2 br2 http2 ∧
      ((checkLinkStatus url b br http).status = Status.num 200 ↔
        emailPatternTest url = true) ∧
      (emailPatternTest url = false →
        (checkLinkStatus url b br http).status = Status.err "Invalid")) ∧
    (strStarts url "mailto:" = true → isTrackingPixel url = true →
      (checkLinkStatus url b br http).status = Status.num 200 ∧
        (checkLinkStatus url b br http).skip = true) ∧
    (strStarts url "tel:" = true →
      (checkLinkStatus url b br http).status = Status.num 200) ∧
    emailPatternTest "mailto:a@b.co" = true ∧
    emailPatternTest "mailto:not-an-email" = false := by
  refine ⟨?_, ?_, ?_, by decide, by decide⟩
  · intro h htp
    obtain ⟨hd, hbl⟩ := strStarts_mailto_excl url h
    simp only [checkLinkStatus, htp, hd, hbl, h, Bool.false_or, Bool.or_self,
      if_false, if_true, Bool.false_eq_true]
    by_cases he : emailPatternTest url = true
    · simp [he]
    · simp only [Bool.not_eq_true] at he
      simp [he]
  · intro h htp
    simp [checkLinkStatus, htp]
  · intro h
    obtain ⟨hd, hbl, hm⟩ := strStarts_tel_excl url h
    by_cases htp : isTrackingPixel url = true
    · simp [checkLinkStatus, htp]
    · simp only [Bool.not_eq_true] at htp
      simp [checkLinkStatus, htp, hd, hbl, hm, h]

/-- Witness for claim C8 (amended): the two concrete mailto examples and
a concrete tel link, through `checkLinkStatus` itself. -/
theorem claim8_witness :
    (checkLinkStatus "mailto:a@b.co" true (BrowserResult.errNav "x")
        HttpResult.dnsFailure).status = Status.num 200 ∧
      (checkLinkStatus "mailto:not-an-email" true (BrowserResult.errNav "x")
        HttpResult.dnsFailure).status = Status.err "Invalid" ∧
      (checkLinkStatus "tel:+15551234567" true (BrowserResult.errNav "x")
        HttpResult.dnsFailure).status = Status.num 200 := by
  refine ⟨?_, ?_, ?_⟩
  · exact ((claim8_special_schemes "mailto:a@b.co" true true
      (BrowserResult.errNav "x") (BrowserResult.errNav "x")
      HttpResult.dnsFailure HttpResult.dnsFailure).1 (by decide)
        (by decide)).2.1.mpr (by decide)
  · exact ((claim8_special_schemes "mailto:not-an-email" true true
      (BrowserResult.errNav "x") (BrowserResult.errNav "x")
      HttpResult.dnsFailure HttpResult.dnsFailure).1 (by decide)
        (by decide)).2.2 (by decide)
  · exact (claim8_special_schemes "tel:+15551234567" true true
      (BrowserResult.errNav "x") (BrowserResult.errNav "x")
      HttpResult.dnsFailure HttpResult.dnsFailure).2.2.1 (by decide)

/-! ## Health score (claim C1) -/

/-- With a positive link total, the health score is the exact rounded
percentage. -/
lemma healthScore_pos (t i : ℕ) (ht : 0 < t) :
    healthScore t i =
      JsNum.fin ((⌊100 * ((t : ℚ) - (i : ℚ)) / (t : ℚ) + 1/2⌋ : ℤ) : ℚ) := by
  have htq : (t : ℚ) ≠ 0 := by
    exact_mod_cast Nat.pos_iff_ne_zero.mp ht
  simp only [healthScore, JsNum.sub, JsNum.div, JsNum.mul, JsNum.round,
    if_neg htq]
  have harg : ((t : ℚ) - i) / t * 100 = 100 * ((t : ℚ) - i) / t := by ring
  rw [harg]

/-- With zero links, the health score is NaN (or an infinity), which
serializes to null. -/
lemma healthScore_zero (i : ℕ) : jsonNumber (healthScore 0 i) = none := by
  simp only [healthScore, JsNum.sub, JsNum.div, JsNum.mul, JsNum.round,
    jsonNumber, Nat.cast_zero, zero_sub]
  split_ifs <;> rfl

/-- Claim C1: for every scan, with `t` the total reference count and `i`
the reported issue count, a positive `t` yields the exact score
`round(100*(t-i)/t)` (with JavaScript rounding, half toward positive
infinity), `i = 0` yields exactly 100, and `t = 0` yields a non-finite
number that is serialized as null rather than crashing or producing a
number. -/
theorem claim1_health_score (links : List Reference)
    (netB : String → BrowserResult) (netH : String → HttpResult)
    (ai : String → Option AIAnalysis) :
    (0 < links.length →
      healthScore links.length (scanResults links netB netH ai).length =
        JsNum.fin ((⌊100 * ((links.length : ℚ) -
          ((scanResults links netB netH ai).length : ℚ)) /
            (links.length : ℚ) + 1/2⌋ : ℤ) : ℚ)) ∧
    (0 < links.length → (scanResults links netB netH ai).length = 0 →
      healthScore links.length (scanResults links netB netH ai).length =
        JsNum.fin 100) ∧
    (links.length = 0 →
      jsonNumber
        (healthScore links.length (scanResults links netB netH ai).length) =
          none) := by
  refine ⟨fun ht => healthScore_pos _ _ ht, fun ht hi => ?_, fun ht => ?_⟩
  · rw [hi, healthScore_pos _ _ ht]
    have htq : (links.length : ℚ) ≠ 0 := by
      exact_mod_cast Nat.pos_iff_ne_zero.mp ht
    have harg : 100 * ((links.length : ℚ) - (0 : ℕ)) / links.length + 1/2 =
        100 + 1/2 := by
      field_simp
    rw [harg]
    have hfl : ⌊(100 : ℚ) + 1/2⌋ = (100 : ℤ) := by
      rw [Int.floor_eq_iff]
      norm_num
    rw [hfl]
    norm_num
  · rw [ht, healthScore_zero]

/-- Witness for claim C1: the demo scan (two references, one issue) and
the empty scan. -/
theorem claim1_witness :
    0 < demoRefs.length ∧
      healthScore demoRefs.length
        (scanResults demoRefs browserErr net404 noAI).length =
        JsNum.fin ((⌊100 * ((demoRefs.length : ℚ) -
          ((scanResults demoRefs browserErr net404 noAI).length : ℚ)) /
            (demoRefs.length : ℚ) + 1/2⌋ : ℤ) : ℚ) ∧
      jsonNumber (healthScore (List.length ([] : List Reference))
        (scanResults [] browserErr net404 noAI).length) = none :=
  ⟨by decide,
    (claim1_health_score demoRefs browserErr net404 noAI).1 (by decide),
    (claim1_health_score [] browserErr net404 noAI).2.2 rfl⟩

/-! ## Deduplication and the issue pipeline (claims C2, C4, C5, C9) -/

/-- Membership in the accumulator-based deduplication. -/
lemma mem_jsSetDedupAux : ∀ (xs seen : List String) (a : String),
    a ∈ jsSetDedupAux xs seen ↔ a ∈ xs ∧ a ∉ seen := by
  intro xs
  induction xs with
  | nil => simp [jsSetDedupAux]
  | cons x xs ih =>
    intro seen a
    rw [jsSetDedupAux]
    split_ifs with hx
    · rw [ih]
      constructor
      · rintro ⟨ha, hna⟩
        exact ⟨List.mem_cons_of_mem x ha, hna⟩
      · rintro ⟨ha, hna⟩
        rcases List.mem_cons.mp ha with rfl | ha2
        · exact absurd hx hna
        · exact ⟨ha2, hna⟩
    · rw [List.mem_cons, ih]
      constructor
      · rintro (rfl | ⟨ha, hna⟩)
        · exact ⟨List.mem_cons_self _ _, hx⟩
        · exact ⟨List.mem_cons_of_mem x ha,
            fun hs => hna (List.mem_cons_of_mem x hs)⟩
      · rintro ⟨ha, hna⟩
        by_cases hax : a = x
        · exact Or.inl hax
        · rcases List.mem_cons.mp ha with rfl | ha2
          · exact Or.inl rfl
          · refine Or.inr ⟨ha2, fun hc => ?_⟩
            rcases List.mem_cons.mp hc with rfl | hc2
            · exact hax rfl
            · exact hna hc2

/-- The accumulator-based deduplication is duplicate-free. -/
lemma jsSetDedupAux_nodup : ∀ xs seen : List String,
    (jsSetDedupAux xs seen).Nodup := by
  intro xs
  induction xs with
  | nil => simp [jsSetDedupAux]
  | cons x xs ih =>
    intro seen
    rw [jsSetDedupAux]
    split_ifs with hx
    · exact ih _
    · rw [List.nodup_cons]
      refine ⟨fun hmem => ?_, ih _⟩
      rw [mem_jsSetDedupAux] at hmem
      exact hmem.2 (List.mem_cons_self x seen)

/-- Deduplication `jsSetDedup` keeps exactly the members of its input. -/
lemma mem_jsSetDedup : ∀ (xs : List String) (a : String),
    a ∈ jsSetDedup xs ↔ a ∈ xs := by
  intro xs a
  rw [jsSetDedup, mem_jsSetDedupAux]
  simp

/-- Deduplication `jsSetDedup` produces a duplicate-free list. -/
lemma jsSetDedup_nodup : ∀ xs : List String, (jsSetDedup xs).Nodup :=
  fun xs => jsSetDedupAux_nodup xs []

/-- Every representative in `uniqueLinks` is the first reference in the
scan carrying its URL. -/
lemma uniqueLinks_first (links : List Reference) :
    ∀ l ∈ uniqueLinks links,
      links.find? (fun x => decide (x.url = l.url)) = some l := by
  intro l hl
  unfold uniqueLinks at hl
  rw [List.mem_filterMap] at hl
  obtain ⟨u, -, hfind⟩ := hl
  have hurl : l.url = u := by
    have := List.find?_some hfind
    simpa using this
  rw [hurl]
  exact hfind

/-- Every representative in `uniqueLinks` is one of the references. -/
lemma uniqueLinks_mem (links : List Reference) :
    ∀ l ∈ uniqueLinks links, l ∈ links := by
  intro l hl
  unfold uniqueLinks at hl
  rw [List.mem_filterMap] at hl
  obtain ⟨u, -, hfind⟩ := hl
  exact List.mem_of_find?_eq_some hfind

/-- The URLs of a first-occurrence deduplicated reference list are
duplicate-free, provided the URL list fed to it is. -/
lemma nodup_urls_filterMap (links : List Reference) :
    ∀ urls : List String, urls.Nodup →
      ((urls.filterMap
        (fun u => links.find? (fun l => decide (l.url = u)))).map
          (fun l => l.url)).Nodup := by
  intro urls
  induction urls with
  | nil => simp
  | cons u us ih =>
    intro h
    rw [List.nodup_cons] at h
    rw [List.filterMap_cons]
    cases hf : links.find? (fun l => decide (l.url = u)) with
    | none => exact ih h.2
    | some l =>
      rw [List.map_cons, List.nodup_cons]
      have hlu : l.url = u := by
        have := List.find?_some hf
        simpa using this
      refine ⟨fun hmem => ?_, ih h.2⟩
      rw [List.mem_map] at hmem
      obtain ⟨l', hl', hurl⟩ := hmem
      rw [List.mem_filterMap] at hl'
      obtain ⟨u', hu', hf'⟩ := hl'
      have hlu' : l'.url = u' := by
        have := List.find?_some hf'
        simpa using this
      apply h.1
      have huu : u = u' := by rw [← hlu, ← hurl, hlu']
      rw [huu]
      exact hu'

/-- The unique-link representatives carry pairwise distinct URLs. -/
lemma uniqueLinks_urls_nodup (links : List Reference) :
    ((uniqueLinks links).map (fun l => l.url)).Nodup :=
  nodup_urls_filterMap links _ (jsSetDedup_nodup _)

/-- Every reference URL has a representative among the unique links. -/
lemma exists_uniqueLink (links : List Reference) (l : Reference)
    (hl : l ∈ links) : ∃ l' ∈ uniqueLinks links, l'.url = l.url := by
  have hu : l.url ∈ jsSetDedup (links.map (fun x => x.url)) :=
    (mem_jsSetDedup _ _).mpr (List.mem_map_of_mem _ hl)
  have hsome : (links.find? (fun x => decide (x.url = l.url))).isSome := by
    rw [List.find?_isSome]
    exact ⟨l, hl, by simp⟩
  obtain ⟨l', hf⟩ := Option.isSome_iff_exists.mp hsome
  refine ⟨l', ?_, ?_⟩
  · unfold uniqueLinks
    rw [List.mem_filterMap]
    exact ⟨l.url, hu, hf⟩
  · have := List.find?_some hf
    simpa using this

/-- Fields of a produced issue, in terms of its link and outcome. -/
lemma processLink_some_fields (link : Reference) (o : Outcome)
    (ai0 : Option AIAnalysis) (n : ℕ) (i : Issue)
    (h : processLink link o ai0 n = some i) :
    i.linkUrl = link.url ∧ i.status = o.status ∧
      i.screenshotAttempted = shouldTakeScreenshot o ∧
      i.pageUrl = link.pageUrl ∧ i.linkText = link.text ∧
      i.context = link.context ∧ i.linkType = link.type ∧
      i.appearancesCount = n := by
  simp only [processLink] at h
  split_ifs at h
  all_goals first
    | exact Option.noConfusion h
    | (obtain rfl := Option.some.inj h; exact ⟨rfl, rfl, rfl, rfl, rfl, rfl, rfl, rfl⟩)

/-- A 403 outcome on an affiliate-class link is dropped entirely. -/
lemma processLink_none_aff403 (link : Reference) (o : Outcome)
    (ai0 : Option AIAnalysis) (n : ℕ) (h403 : o.status = Status.num 403)
    (hIA : o.isAffiliate = true) : processLink link o ai0 n = none := by
  by_cases hsk : o.skip
  · simp [processLink, hsk]
  · simp [processLink, hsk, h403, hIA]

/-- A non-success, non-403-affiliate, non-3xx outcome always produces an
issue, with the deterministic fallback fields when the analysis
collaborator is absent. -/
lemma processLink_fail_some (link : Reference) (o : Outcome)
    (ai0 : Option AIAnalysis) (n : ℕ)
    (hsk : o.skip = false) (htw : o.treatAsWorking = false)
    (hsucc : isSuccessStatus o.status = false)
    (h403 : ¬(o.status = Status.num 403 ∧ o.isAffiliate = true))
    (h304 : o.status ≠ Status.num 304)
    (h200 : o.status ≠ Status.num 200)
    (h3xx : numRange o.status 300 400 = false) :
    processLink link o ai0 n = some
      { pageUrl := link.pageUrl, linkText := link.text, linkUrl := link.url,
        status := o.status, statusText := o.statusText,
        redirectCount := o.redirectCount,
        finalUrl := o.finalUrl.getD link.url,
        priority := (ai0.map AIAnalysis.priority).getD
          (determinePriorityFromStatus o.status),
        type := (ai0.map AIAnalysis.issueType).getD (getIssueType o.status),
        context := link.context,
        suggestedFix := ai0.bind AIAnalysis.suggestedFix,
        impactScore := calculateImpactScore o.status link.context n,
        appearancesCount := n, linkType := link.type,
        screenshotAttempted := shouldTakeScreenshot o } := by
  have hd200 : decide (o.status = Status.num 200) = false := by
    simp [h200]
  have hia : isActualIssue o = true := by
    simp [isActualIssue, hsucc, htw, hd200, h3xx]
  simp [processLink, hsk, h403, h304, hia, hd200]

/-- Inserting preserves membership up to permutation. -/
lemma insertByRank_perm (i : Issue) (l : List Issue) :
    (insertByRank i l).Perm (i :: l) := by
  induction l with
  | nil => exact List.Perm.refl _
  | cons j js ih =>
    rw [insertByRank]
    split_ifs
    · exact (ih.cons j).trans (List.Perm.swap i j js)
    · exact List.Perm.refl _

/-- The response sort permutes the issue list. -/
lemma sortByPriority_perm (l : List Issue) : (sortByPriority l).Perm l := by
  induction l with
  | nil => exact List.Perm.refl _
  | cons i is ih =>
    rw [sortByPriority]
    exact (insertByRank_perm i _).trans (ih.cons i)

/-- Membership in the ranked results is membership in the raw issue
list. -/
lemma mem_scanResults_iff (links : List Reference)
    (netB : String → BrowserResult) (netH : String → HttpResult)
    (ai : String → Option AIAnalysis) (i : Issue) :
    i ∈ scanResults links netB netH ai ↔ i ∈ scanIssues links netB netH ai :=
  (sortByPriority_perm _).mem_iff

/-- Introduce a ranked-result membership from a unique-link
representative. -/
lemma mem_scanResults_intro (links : List Reference)
    (netB : String → BrowserResult) (netH : String → HttpResult)
    (ai : String → Option AIAnalysis) (l : Reference)
    (hl : l ∈ uniqueLinks links) (i : Issue)
    (h : processLink l (checkLinkStatus l.url true (netB l.url) (netH l.url))
      (ai l.url) (countAppearances links l.url) = some i) :
    i ∈ scanResults links netB netH ai := by
  rw [mem_scanResults_iff]
  unfold scanIssues
  rw [List.mem_filterMap]
  exact ⟨l, hl, h⟩

/-- Every ranked result arises from a unique-link representative. -/
lemma mem_scanResults_elim (links : List Reference)
    (netB : String → BrowserResult) (netH : String → HttpResult)
    (ai : String → Option AIAnalysis) (i : Issue)
    (h : i ∈ scanResults links netB netH ai) :
    ∃ l ∈ uniqueLinks links,
      processLink l (checkLinkStatus l.url true (netB l.url) (netH l.url))
        (ai l.url) (countAppearances links l.url) = some i := by
  rw [mem_scanResults_iff] at h
  unfold scanIssues at h
  rw [List.mem_filterMap] at h
  exact h

/-- The affiliate browser branch of `checkLinkStatus`, once the earlier
classification branches are excluded. -/
lemma checkLinkStatus_affiliate (url : String) (br : BrowserResult)
    (http : HttpResult) (haff : isAffiliateLink url = true)
    (htp : isTrackingPixel url = false)
    (hd : strStarts url "data:" = false) (hbl : strStarts url "blob:" = false)
    (hm : strStarts url "mailto:" = false) (htl : strStarts url "tel:" = false)
    (hj : strStarts url "javascript:" = false)
    (hh : strStarts url "#" = false) :
    checkLinkStatus url true br http =
      (let result := checkLinkWithBrowser br
       if result.status = Status.num 403 then
         { result with treatAsWorking := true, statusText := "Anti-bot protection (link works in browsers)" }
       else result) := by
  simp [checkLinkStatus, haff, htp, hd, hbl, hm, htl, hj, hh]

/-- Claim C2: on an affiliate-class URL verified with the browser, a 403
is recharacterized as treat-as-working and its URL never appears in the
final issue list, while every other failing browser outcome (404, other
failing numeric statuses, thrown navigation errors) is reported: in
particular a 404 with the analysis collaborator absent is reported as a
Critical issue of type "Broken Link (404)".  The hypotheses state that
the URL is affiliate-class and reaches the browser branch (it is not a
tracking pixel, inline content, or special scheme). -/
theorem claim2_affiliate_override (links : List Reference)
    (netB : String → BrowserResult) (netH : String → HttpResult)
    (ai : String → Option AIAnalysis) (url : String)
    (haff : isAffiliateLink url = true) (htp : isTrackingPixel url = false)
    (hd : strStarts url "data:" = false) (hbl : strStarts url "blob:" = false)
    (hm : strStarts url "mailto:" = false) (htl : strStarts url "tel:" = false)
    (hj : strStarts url "javascript:" = false)
    (hh : strStarts url "#" = false) :
    (∀ t f, netB url = BrowserResult.ok 403 t f →
      (checkLinkStatus url true (netB url) (netH url)).treatAsWorking = true ∧
      ∀ i ∈ scanResults links netB netH ai, i.linkUrl ≠ url) ∧
    (∀ t f, netB url = BrowserResult.ok 404 t f → ai url = none →
      ∀ l ∈ links, l.url = url →
      ∃ i ∈ scanResults links netB netH ai, i.linkUrl = url ∧
        i.status = Status.num 404 ∧ i.priority = "Critical" ∧
        i.type = "Broken Link (404)") ∧
    (∀ s t f, netB url = BrowserResult.ok s t f →
      isSuccessStatus (Status.num s) = false → s ≠ 403 →
      numRange (Status.num s) 300 400 = false →
      ∀ l ∈ links, l.url = url →
      ∃ i ∈ scanResults links netB netH ai, i.linkUrl = url ∧
        i.status = Status.num s) ∧
    (∀ m, netB url = BrowserResult.errNav m →
      ∀ l ∈ links, l.url = url →
      ∃ i ∈ scanResults links netB netH ai, i.linkUrl = url ∧
        i.status = Status.err "ERROR") := by
  have hred := checkLinkStatus_affiliate url (netB url) (netH url) haff htp hd
    hbl hm htl hj hh
  refine ⟨?_, ?_, ?_, ?_⟩
  · intro t f hb
    have ho : checkLinkStatus url true (netB url) (netH url) =
        { status := Status.num 403,
          statusText := "Anti-bot protection (link works in browsers)",
          treatAsWorking := true, isAffiliate := true,
          checkedWithBrowser := true, finalUrl := some f } := by
      rw [hred, hb]
      rfl
    refine ⟨by rw [ho], fun i hi heq => ?_⟩
    obtain ⟨l, hl, hp⟩ := mem_scanResults_elim links netB netH ai i hi
    have hflds := processLink_some_fields _ _ _ _ _ hp
    have hlurl : l.url = url := by rw [← hflds.1, heq]
    rw [hlurl] at hp
    rw [processLink_none_aff403 l _ (ai url) (countAppearances links url)
      (by rw [ho]) (by rw [ho])] at hp
    exact Option.noConfusion hp
  · intro t f hb hai l hl hlurl
    have ho : checkLinkStatus url true (netB url) (netH url) =
        { status := Status.num 404, statusText := t, isAffiliate := true,
          checkedWithBrowser := true, finalUrl := some f } := by
      rw [hred, hb]
      rfl
    obtain ⟨l', hl', hurl'⟩ := exists_uniqueLink links l hl
    have hurl : l'.url = url := hurl'.trans hlurl
    have hp := processLink_fail_some l'
      (checkLinkStatus url true (netB url) (netH url)) (ai url)
      (countAppearances links url)
      (by rw [ho]) (by rw [ho]) (by rw [ho]; rfl)
      (by rw [ho]; simp) (by rw [ho]; simp) (by rw [ho]; simp)
      (by rw [ho]; rfl)
    rw [← hurl] at hp
    refine ⟨_, mem_scanResults_intro links netB netH ai l' hl' _ hp, hurl, ?_,
      ?_, ?_⟩
    · rw [hurl, ho]
    · rw [hurl, hai, ho]
      simp [determinePriorityFromStatus]
    · rw [hurl, hai, ho]
      simp [getIssueType]
  · intro s t f hb hsucc h403 h3xx l hl hlurl
    have ho : checkLinkStatus url true (netB url) (netH url) =
        { status := Status.num s, statusText := t, isAffiliate := true,
          checkedWithBrowser := true, finalUrl := some f } := by
      rw [hred, hb]
      simp only [checkLinkWithBrowser]
      split_ifs with hcond
      · exact absurd (by simpa using hcond) h403
      · rfl
    obtain ⟨l', hl', hurl'⟩ := exists_uniqueLink links l hl
    have hurl : l'.url = url := hurl'.trans hlurl
    have h200 : s ≠ 200 := by
      intro hc
      rw [hc] at hsucc
      exact absurd hsucc (by decide)
    have h304 : s ≠ 304 := by
      intro hc
      rw [hc] at hsucc
      exact absurd hsucc (by decide)
    have hp := processLink_fail_some l'
      (checkLinkStatus url true (netB url) (netH url)) (ai url)
      (countAppearances links url)
      (by rw [ho]) (by rw [ho]) (by rw [ho]; exact hsucc)
      (by rw [ho]; simp; intro hc; exact absurd hc h403)
      (by rw [ho]; simp [h304]) (by rw [ho]; simp [h200])
      (by rw [ho]; exact h3xx)
    rw [← hurl] at hp
    exact ⟨_, mem_scanResults_intro links netB netH ai l' hl' _ hp, hurl,
      by rw [hurl, ho]⟩
  · intro m hb l hl hlurl
    have ho : checkLinkStatus url true (netB url) (netH url) =
        { status := Status.err "ERROR", statusText := m, isAffiliate := true,
          checkedWithBrowser := true } := by
      rw [hred, hb]
      rfl
    obtain ⟨l', hl', hurl'⟩ := exists_uniqueLink links l hl
    have hurl : l'.url = url := hurl'.trans hlurl
    have hp := processLink_fail_some l'
      (checkLinkStatus url true (netB url) (netH url)) (ai url)
      (countAppearances links url)
      (by rw [ho]) (by rw [ho]) (by rw [ho]; rfl)
      (by rw [ho]; simp) (by rw [ho]; simp) (by rw [ho]; simp)
      (by rw [ho]; rfl)
    rw [← hurl] at hp
    exact ⟨_, mem_scanResults_intro links netB netH ai l' hl' _ hp, hurl,
      by rw [hurl, ho]⟩

/-- Witness for claim C2: the concrete affiliate reference verified with
a 403-answering browser (dropped, treat-as-working) and with a
404-answering browser (reported Critical). -/
theorem claim2_witness :
    ((checkLinkStatus affRef.url true (browser403 affRef.url)
        (net502 affRef.url)).treatAsWorking = true ∧
      ∀ i ∈ scanResults [affRef] browser403 net502 noAI,
        i.linkUrl ≠ affRef.url) ∧
    (∃ i ∈ scanResults [affRef] browser404 net502 noAI,
      i.linkUrl = affRef.url ∧ i.status = Status.num 404 ∧
        i.priority = "Critical" ∧ i.type = "Broken Link (404)") := by
  constructor
  · exact (claim2_affiliate_override [affRef] browser403 net502 noAI
      affRef.url (by decide) (by decide) (by decide) (by decide) (by decide)
      (by decide) (by decide) (by decide)).1 "Forbidden"
      "https://x.example/landing" rfl
  · exact (claim2_affiliate_override [affRef] browser404 net502 noAI
      affRef.url (by decide) (by decide) (by decide) (by decide) (by decide)
      (by decide) (by decide) (by decide)).2.1 "Not Found"
      "https://x.example/landing" rfl rfl affRef (by simp) rfl

/-- Claim C4 counterexample: a scan whose only issue is a 502 — a
5xx-class status by the code's own threshold test — does not attempt a
screenshot, because the gate compares against exactly 500. -/
theorem claim4_counterexample :
    (scanResults demoRefs browserErr net502 noAI).map
      (fun i => (i.status, i.screenshotAttempted)) = [(Status.num 502, false)] ∧
    numGe (Status.num 502) 500 = true := by
  constructor <;> decide

/-- Claim C4 (amended): a screenshot is attempted exactly for statuses
404, exactly 500 (not other 5xx), ERROR, DNS_ERROR and TIMEOUT, and
never when the outcome is flagged treat-as-working; treat-as-working is
only ever set on a 403 outcome, so every reported issue whose status
lies in that five-element set does attempt a capture, and a
403-recharacterized affiliate outcome never does. -/
theorem claim4_screenshot_gate (o : Outcome) (links : List Reference)
    (netB : String → BrowserResult) (netH : String → HttpResult)
    (ai : String → Option AIAnalysis) :
    (shouldTakeScreenshot o = true ↔
      ((o.status = Status.num 404 ∨ o.status = Status.num 500 ∨
        o.status = Status.err "ERROR" ∨ o.status = Status.err "DNS_ERROR" ∨
        o.status = Status.err "TIMEOUT") ∧ o.treatAsWorking = false)) ∧
    (o.treatAsWorking = true → shouldTakeScreenshot o = false) ∧
    (∀ url b br http, (checkLinkStatus url b br http).treatAsWorking = true →
      (checkLinkStatus url b br http).status = Status.num 403) ∧
    (∀ i ∈ scanResults links netB netH ai,
      i.screenshotAttempted = shouldTakeScreenshot
        (checkLinkStatus i.linkUrl true (netB i.linkUrl) (netH i.linkUrl))) ∧
    (∀ i ∈ scanResults links netB netH ai,
      (i.status = Status.num 404 ∨ i.status = Status.num 500 ∨
        i.status = Status.err "ERROR" ∨ i.status = Status.err "DNS_ERROR" ∨
        i.status = Status.err "TIMEOUT") → i.screenshotAttempted = true) := by
  have hiff : ∀ o' : Outcome, shouldTakeScreenshot o' = true ↔
      ((o'.status = Status.num 404 ∨ o'.status = Status.num 500 ∨
        o'.status = Status.err "ERROR" ∨ o'.status = Status.err "DNS_ERROR" ∨
        o'.status = Status.err "TIMEOUT") ∧ o'.treatAsWorking = false) := by
    intro o'
    simp only [shouldTakeScreenshot, Bool.and_eq_true, Bool.or_eq_true,
      decide_eq_true_eq, Bool.not_eq_true']
    tauto
  have htw403 : ∀ (url : String) (b : Bool) (br : BrowserResult)
      (http : HttpResult), (checkLinkStatus url b br http).treatAsWorking =
        true → (checkLinkStatus url b br http).status = Status.num 403 := by
    intro url b br http h
    simp only [checkLinkStatus] at h ⊢
    split_ifs at h ⊢ with c1 c2 c3 cEmail c4 c5 c6 c403
    · simpa using c403
    · cases br <;> simp [checkLinkWithBrowser] at h
    · cases http <;> simp [httpOutcome] at h
  refine ⟨hiff o, fun h => by simp [shouldTakeScreenshot, h], htw403, ?_, ?_⟩
  · intro i hi
    obtain ⟨l, hl, hp⟩ := mem_scanResults_elim links netB netH ai i hi
    have hf := processLink_some_fields _ _ _ _ _ hp
    rw [hf.1, hf.2.2.1]
  · intro i hi hset
    obtain ⟨l, hl, hp⟩ := mem_scanResults_elim links netB netH ai i hi
    have hf := processLink_some_fields _ _ _ _ _ hp
    rw [hf.2.2.1]
    rw [hf.2.1] at hset
    refine (hiff _).mpr ⟨hset, ?_⟩
    cases htw : (checkLinkStatus l.url true (netB l.url)
        (netH l.url)).treatAsWorking
    · rfl
    · exfalso
      have := htw403 l.url true (netB l.url) (netH l.url) htw
      rw [this] at hset
      rcases hset with hc | hc | hc | hc | hc <;> simp at hc

/-- Witness for claim C4 (amended): the demo scan with a network 404 —
the resulting issue attempts its capture; and a concrete
treat-as-working outcome with no capture. -/
theorem claim4_witness :
    (∀ i ∈ scanResults demoRefs browserErr net404 noAI,
      (i.status = Status.num 404 ∨ i.status = Status.num 500 ∨
        i.status = Status.err "ERROR" ∨ i.status = Status.err "DNS_ERROR" ∨
        i.status = Status.err "TIMEOUT") → i.screenshotAttempted = true) ∧
    shouldTakeScreenshot (checkLinkStatus affRef.url true
      (browser403 affRef.url) (net404 affRef.url)) = false := by
  constructor
  · exact (claim4_screenshot_gate (httpOutcome (net404 affRef.url)) demoRefs
      browserErr net404 noAI).2.2.2.2
  · exact (claim4_screenshot_gate (checkLinkStatus affRef.url true
      (browser403 affRef.url) (net404 affRef.url)) demoRefs
      browserErr net404 noAI).2.1 (by decide)

/-- Claim C5 counterexample: two references to the same dead URL on the
same page produce one issue whose appearances count is 2, although the
URL appears on exactly one page. -/
theorem claim5_counterexample :
    (scanResults demoRefs browserErr net404 noAI).map
      (fun i => (i.linkUrl, i.appearancesCount)) =
        [("https://dead.example/x", 2)] ∧
    pagesContainingUrl demoRefs "https://dead.example/x" = 1 := by
  constructor <;> decide

/-- Claim C5 (amended): the appearances count attached to every reported
issue equals the number of reference occurrences of its URL across the
whole crawl — a page referencing the URL several times contributes each
occurrence — not the number of distinct pages carrying it (the demo pair
of same-page references counts 2 while appearing on 1 page). -/
theorem claim5_appearances :
    (∀ (links : List Reference) (netB : String → BrowserResult)
      (netH : String → HttpResult) (ai : String → Option AIAnalysis),
      (scanResults links netB netH ai).all
        (fun i => i.appearancesCount == countAppearances links i.linkUrl) =
          true) ∧
    countAppearances demoRefs "https://dead.example/x" = 2 ∧
    pagesContainingUrl demoRefs "https://dead.example/x" = 1 := by
  refine ⟨?_, by decide, by decide⟩
  intro links netB netH ai
  rw [List.all_eq_true]
  intro i hi
  obtain ⟨l, hl, hp⟩ := mem_scanResults_elim links netB netH ai i hi
  have hf := processLink_some_fields _ _ _ _ _ hp
  rw [beq_iff_eq, hf.1]
  exact hf.2.2.2.2.2.2.2

/-- A first-occurrence deduplicated reference list yields at most one
issue per URL through any issue-producing map. -/
lemma filter_length_filterMap_le_one (f : Reference → Option Issue)
    (hf : ∀ l i, f l = some i → i.linkUrl = l.url) :
    ∀ uls : List Reference, (uls.map (fun l => l.url)).Nodup →
      ∀ u : String,
        ((uls.filterMap f).filter
          (fun i => decide (i.linkUrl = u))).length ≤ 1 := by
  intro uls
  induction uls with
  | nil =>
    intro _ u
    simp
  | cons l ls ih =>
    intro h u
    rw [List.map_cons, List.nodup_cons] at h
    rw [List.filterMap_cons]
    cases hf0 : f l with
    | none => exact ih h.2 u
    | some i =>
      rw [List.filter_cons]
      by_cases hiu : i.linkUrl = u
      · rw [if_pos (by simp [hiu])]
        have hz : ((ls.filterMap f).filter
            (fun i => decide (i.linkUrl = u))).length = 0 := by
          rw [List.length_eq_zero, List.filter_eq_nil_iff]
          intro j hj
          rw [List.mem_filterMap] at hj
          obtain ⟨l', hl', hfl'⟩ := hj
          have hjl' : j.linkUrl = l'.url := hf _ _ hfl'
          simp only [decide_eq_true_eq]
          intro hju
          apply h.1
          have hll' : l'.url = l.url := by
            rw [← hjl', hju, ← hiu, hf _ _ hf0]
          rw [← hll']
          exact List.mem_map_of_mem _ hl'
        rw [List.length_cons, hz]
      · rw [if_neg (by simp [hiu])]
        exact ih h.2 u

/-- Claim C9: verification and reporting are deduplicated by URL — the
unique-link representatives carry pairwise distinct URLs, each
representative is the first discovered reference with its URL, the final
issue list contains at most one issue per URL, and every issue carries
the page URL, link text, context and reference kind of the first
discovered reference with its URL. -/
theorem claim9_dedup (links : List Reference)
    (netB : String → BrowserResult) (netH : String → HttpResult)
    (ai : String → Option AIAnalysis) :
    ((uniqueLinks links).map (fun l => l.url)).Nodup ∧
    (∀ l ∈ uniqueLinks links,
      links.find? (fun x => decide (x.url = l.url)) = some l) ∧
    (∀ u : String, ((scanResults links netB netH ai).filter
      (fun i => decide (i.linkUrl = u))).length ≤ 1) ∧
    (∀ i ∈ scanResults links netB netH ai,
      links.find? (fun x => decide (x.url = i.linkUrl)) = some
        { url := i.linkUrl, text := i.linkText, context := i.context,
          type := i.linkType, pageUrl := i.pageUrl }) := by
  refine ⟨uniqueLinks_urls_nodup links, uniqueLinks_first links, ?_, ?_⟩
  · intro u
    have hperm := (sortByPriority_perm (scanIssues links netB netH ai)).filter
      (fun i => decide (i.linkUrl = u))
    rw [scanResults, hperm.length_eq]
    exact filter_length_filterMap_le_one _
      (fun l i hp => (processLink_some_fields _ _ _ _ _ hp).1) _
      (uniqueLinks_urls_nodup links) u
  · intro i hi
    obtain ⟨l, hl, hp⟩ := mem_scanResults_elim links netB netH ai i hi
    have hf := processLink_some_fields _ _ _ _ _ hp
    have hfind := uniqueLinks_first links l hl
    rw [hf.1, hfind, hf.2.2.2.1, hf.2.2.2.2.1, hf.2.2.2.2.2.1,
      hf.2.2.2.2.2.2.1]

/-- Witness for claim C9: concrete instances on the demo scan. -/
theorem claim9_witness :
    ((uniqueLinks demoRefs).map (fun l => l.url)).Nodup ∧
      ((scanResults demoRefs browserErr net404 noAI).filter
        (fun i => decide (i.linkUrl = "https://dead.example/x"))).length ≤ 1 :=
  ⟨(claim9_dedup demoRefs browserErr net404 noAI).1,
    (claim9_dedup demoRefs browserErr net404 noAI).2.2.1
      "https://dead.example/x"⟩

/-! ## The crawl loop (claims C6, C10) -/

/-- Everything the enqueue loop records was already recorded or comes
from the supplied internal-link list with the current page as source. -/
lemma enqueueAll_mem (visited : List String) (src : String) :
    ∀ (ls q : List String) (e : List (String × String)),
      ∀ p ∈ (enqueueAll visited src ls q e).2,
        p ∈ e ∨ (p.1 = src ∧ p.2 ∈ ls) := by
  intro ls
  induction ls with
  | nil =>
    intro q e p hp
    exact Or.inl hp
  | cons x xs ih =>
    intro q e p hp
    rw [enqueueAll] at hp
    split_ifs at hp
    · rcases ih _ _ p hp with hin | ⟨h1, h2⟩
      · rcases List.mem_append.mp hin with hin2 | hin2
        · exact Or.inl hin2
        · obtain rfl := List.mem_singleton.mp hin2
          exact Or.inr ⟨rfl, List.mem_cons_self _ _⟩
      · exact Or.inr ⟨h1, List.mem_cons_of_mem _ h2⟩
    · rcases ih _ _ p hp with hin | ⟨h1, h2⟩
      · exact Or.inl hin
      · exact Or.inr ⟨h1, List.mem_cons_of_mem _ h2⟩

/-- Every URL the crawler considers internal is non-affiliate and
same-domain. -/
lemma internalLinksOf_mem (hostOf : String → Option String)
    (baseDomain : String) (links : List PageLink) :
    ∀ u ∈ internalLinksOf hostOf baseDomain links,
      isAffiliateLink u = false ∧
        sameDomainOk hostOf baseDomain u = true := by
  intro u hu
  unfold internalLinksOf at hu
  rw [List.mem_map] at hu
  obtain ⟨l, hl, rfl⟩ := hu
  rw [List.mem_filter] at hl
  have h2 := hl.2
  simp only [Bool.and_eq_true, Bool.not_eq_true'] at h2
  exact ⟨h2.1.2, h2.2⟩

/-- The combined invariant of the crawl loop: the visited set only
grows; its size stays within the page bound; the navigation trace stays
duplicate-free and inside the visited set; every recorded enqueue is old
or targets a non-affiliate same-domain URL from a successfully fetched
page; every collected reference is old or comes from a successfully
fetched page. -/
lemma crawlLoop_spec (web : String → Option (List PageLink))
    (hostOf : String → Option String) (b : String) (maxPages : ℕ) :
    ∀ (fuel : ℕ) (st : CrawlState),
      (∀ v ∈ st.visited,
        v ∈ (crawlLoop web hostOf b maxPages fuel st).visited) ∧
      ((crawlLoop web hostOf b maxPages fuel st).visited.length ≤
        max st.visited.length maxPages) ∧
      ((st.navigated.Nodup ∧ ∀ v ∈ st.navigated, v ∈ st.visited) →
        ((crawlLoop web hostOf b maxPages fuel st).navigated.Nodup ∧
          ∀ v ∈ (crawlLoop web hostOf b maxPages fuel st).navigated,
            v ∈ (crawlLoop web hostOf b maxPages fuel st).visited)) ∧
      (∀ p ∈ (crawlLoop web hostOf b maxPages fuel st).enqueued,
        p ∈ st.enqueued ∨ (isAffiliateLink p.2 = false ∧
          sameDomainOk hostOf b p.2 = true ∧ (web p.1).isSome = true)) ∧
      (∀ r ∈ (crawlLoop web hostOf b maxPages fuel st).allLinks,
        r ∈ st.allLinks ∨ (web r.pageUrl).isSome = true) := by
  intro fuel
  induction fuel with
  | zero =>
    intro st
    exact ⟨fun v hv => hv, Nat.le_max_left _ _, fun h => h,
      fun p hp => Or.inl hp, fun r hr => Or.inl hr⟩
  | succ n ih =>
    intro st
    obtain ⟨vis, tv, al, nav, enq⟩ := st
    cases tv with
    | nil =>
      rw [crawlLoop]
      exact ⟨fun v hv => hv, Nat.le_max_left _ _, fun h => h,
        fun p hp => Or.inl hp, fun r hr => Or.inl hr⟩
    | cons u rest =>
      rw [crawlLoop]
      dsimp only
      split_ifs with hbound hvisited
      · exact ⟨fun v hv => hv, Nat.le_max_left _ _, fun h => h,
          fun p hp => Or.inl hp, fun r hr => Or.inl hr⟩
      · exact ih { visited := vis, toVisit := rest, allLinks := al, navigated := nav, enqueued := enq }
      · cases hw : web u with
        | none =>
          dsimp only
          obtain ⟨ihmono, ihbound, ihnav, ihenq, ihlinks⟩ :=
            ih { visited := vis ++ [u], toVisit := rest, allLinks := al, navigated := nav ++ [u], enqueued := enq }
          refine ⟨fun v hv => ihmono v (List.mem_append_left _ hv), ?_,
            fun hpre => ihnav ⟨?_, ?_⟩, ihenq, ihlinks⟩
          · refine ihbound.trans ?_
            simp only [List.length_append, List.length_singleton]
            omega
          · rw [List.nodup_append]
            refine ⟨hpre.1, List.nodup_singleton u, ?_⟩
            intro v hv hvu
            rw [List.mem_singleton] at hvu
            subst hvu
            exact hvisited (hpre.2 v hv)
          · intro v hv
            rcases List.mem_append.mp hv with hv2 | hv2
            · exact List.mem_append_left _ (hpre.2 v hv2)
            · exact List.mem_append_right _ hv2
        | some links =>
          dsimp only
          obtain ⟨ihmono, ihbound, ihnav, ihenq, ihlinks⟩ :=
            ih { visited := vis ++ [u], toVisit := (enqueueAll (vis ++ [u]) u (internalLinksOf hostOf b links) rest enq).1, allLinks := al ++ links.map (fun l => { url := l.url, text := l.text, context := l.context, type := l.type, pageUrl := u }), navigated := nav ++ [u], enqueued := (enqueueAll (vis ++ [u]) u (internalLinksOf hostOf b links) rest enq).2 }
          refine ⟨fun v hv => ihmono v (List.mem_append_left _ hv), ?_,
            fun hpre => ihnav ⟨?_, ?_⟩, ?_, ?_⟩
          · refine ihbound.trans ?_
            simp only [List.length_append, List.length_singleton]
            omega
          · rw [List.nodup_append]
            refine ⟨hpre.1, List.nodup_singleton u, ?_⟩
            intro v hv hvu
            rw [List.mem_singleton] at hvu
            subst hvu
            exact hvisited (hpre.2 v hv)
          · intro v hv
            rcases List.mem_append.mp hv with hv2 | hv2
            · exact List.mem_append_left _ (hpre.2 v hv2)
            · exact List.mem_append_right _ hv2
          · intro p hp
            rcases ihenq p hp with hin | hnew
            · rcases enqueueAll_mem (vis ++ [u]) u _ _ _ p hin with
                hin2 | ⟨hsrc, htgt⟩
              · exact Or.inl hin2
              · obtain ⟨haff, hdom⟩ :=
                  internalLinksOf_mem hostOf b links p.2 htgt
                refine Or.inr ⟨haff, hdom, ?_⟩
                rw [hsrc, hw]
                rfl
            · exact Or.inr hnew
          · intro r hr
            rcases ihlinks r hr with hin | hnew
            · rcases List.mem_append.mp hin with hin2 | hin2
              · exact Or.inl hin2
              · rw [List.mem_map] at hin2
                obtain ⟨l, -, rfl⟩ := hin2
                refine Or.inr ?_
                rw [hw]
                rfl
            · exact Or.inr hnew

/-- Claim C6: throughout a crawl, no URL is navigated twice, the number
of visited pages never exceeds the `maxPages` bound, and every URL ever
enqueued on the frontier is neither affiliate-class nor on a hostname
other than the root hostname. -/
theorem claim6_crawl_invariants (web : String → Option (List PageLink))
    (hostOf : String → Option String) (domain b : String)
    (maxPages fuel : ℕ) (st' : CrawlState)
    (hb : hostOf domain = some b)
    (hrun : crawlWebsite web hostOf domain maxPages fuel = some st') :
    st'.navigated.Nodup ∧ st'.visited.length ≤ maxPages ∧
      ∀ p ∈ st'.enqueued, isAffiliateLink p.2 = false ∧
        hostOf p.2 = some b := by
  rw [crawlWebsite, hb, Option.map_some'] at hrun
  obtain rfl : st' = _ := (Option.some.inj hrun).symm
  have h := crawlLoop_spec web hostOf b maxPages fuel (initCrawl domain)
  refine ⟨(h.2.2.1 ⟨List.nodup_nil, by simp [initCrawl]⟩).1, ?_, ?_⟩
  · have hb2 := h.2.1
    simpa [initCrawl] using hb2
  · intro p hp
    rcases h.2.2.2.1 p hp with hin | ⟨haff, hdom, -⟩
    · simp [initCrawl] at hin
    · refine ⟨haff, ?_⟩
      unfold sameDomainOk at hdom
      cases hh : hostOf p.2 with
      | none => rw [hh] at hdom; exact Bool.noConfusion hdom
      | some hname =>
        rw [hh] at hdom
        rw [decide_eq_true_eq] at hdom
        rw [hdom]

/-- Claim C10: every URL the crawler navigates — including pages whose
navigation fails — ends up in the visited set (and therefore in the
returned page list and the `maxPages` accounting), while references are
only ever collected from, and frontier entries only ever enqueued from,
pages whose navigation succeeded. -/
theorem claim10_failed_pages (web : String → Option (List PageLink))
    (hostOf : String → Option String) (domain b : String)
    (maxPages fuel : ℕ) (st' : CrawlState)
    (hb : hostOf domain = some b)
    (hrun : crawlWebsite web hostOf domain maxPages fuel = some st') :
    (∀ u ∈ st'.navigated, u ∈ st'.visited) ∧
      (∀ r ∈ st'.allLinks, (web r.pageUrl).isSome = true) ∧
      ∀ p ∈ st'.enqueued, (web p.1).isSome = true := by
  rw [crawlWebsite, hb, Option.map_some'] at hrun
  obtain rfl : st' = _ := (Option.some.inj hrun).symm
  have h := crawlLoop_spec web hostOf b maxPages fuel (initCrawl domain)
  refine ⟨(h.2.2.1 ⟨List.nodup_nil, by simp [initCrawl]⟩).2, ?_, ?_⟩
  · intro r hr
    rcases h.2.2.2.2 r hr with hin | hnew
    · simp [initCrawl] at hin
    · exact hnew
  · intro p hp
    rcases h.2.2.2.1 p hp with hin | ⟨-, -, hnew⟩
    · simp [initCrawl] at hin
    · exact hnew

/-- Witness for claim C6: the demo crawl stays within its page bound and
never enqueues the affiliate or cross-domain demo targets. -/
theorem claim6_witness :
    (crawlLoop demoWeb demoHost "site.example" 3 10
      (initCrawl "https://site.example/")).visited.length ≤ 3 ∧
    (crawlLoop demoWeb demoHost "site.example" 3 10
      (initCrawl "https://site.example/")).navigated.Nodup := by
  have h := claim6_crawl_invariants demoWeb demoHost "https://site.example/"
    "site.example" 3 10 _ rfl rfl
  exact ⟨h.2.1, h.1⟩

/-- Witness for claim C10: the demo page whose navigation fails is still
in the visited list, and every collected reference comes from the page
that fetched successfully. -/
theorem claim10_witness :
    "https://site.example/a" ∈ (crawlLoop demoWeb demoHost "site.example" 3 10
      (initCrawl "https://site.example/")).visited := by
  have h := claim10_failed_pages demoWeb demoHost "https://site.example/"
    "site.example" 3 10 _ rfl rfl
  exact h.1 "https://site.example/a" (by decide)

end LinkChecker
